import Mathlib

/-!
Verification of the Infoscava plugin runtime (src/main.py, class PluginManager
and the plugin-facing parts of InfoscavaMainWindow) against its specification.

The embedding is shallow and executable:
* Python values returned by plugin entry points are the inductive `PyValue`.
* The plugin directory is a pair of association lists keyed by plugin name:
  `name.infoscava` manifest files and `name.py` source artifacts.  Every file
  access in the source constructs these two paths from the plugin name, so
  keying by name is a 1:1 rendering of the paths.
* File writes are modelled as succeeding; the `except` arms that catch I/O
  failures of `open`/`os.remove` are therefore unreachable in the model (the
  spec treats persist failures as environment nondeterminism, section 7).
* Qt signals and message boxes are pure notifications with no effect on the
  manager state and are not modelled; the user's answer to the overwrite
  question in `load_new_plugin_file` is passed in as a Boolean.
* The Python import machinery (`importlib` spec creation and module
  execution) is modelled by an environment function from the artifact's
  source text to an import outcome.
-/

/-- Python value returned by a plugin entry point, as far as the host
inspects it: `isinstance(result, dict)`, `isinstance(result, (dict, list))`,
`result.get(...)` and `str(result)` are the only observations made. -/
inductive PyValue where
  | none
  | bool (b : Bool)
  | int (n : Int)
  | str (s : String)
  | list (xs : List PyValue)
  | dict (kvs : List (String × PyValue))

/-- Lookup in an association list, first match wins; Python dicts have unique
keys, so this is exactly dict lookup / `d.get(k)`. -/
def alookup {α : Type} : List (String × α) → String → Option α
  | [], _ => Option.none
  | (k2, v) :: rest, k => if k2 = k then some v else alookup rest k

/-- Python dict assignment `d[k] = v`: replaces in place (keeping the key's
original position) when the key exists, otherwise appends at the end,
matching insertion-order semantics of Python dicts. -/
def ainsert {α : Type} : List (String × α) → String → α → List (String × α)
  | [], k, v => [(k, v)]
  | (k2, w) :: rest, k, v =>
      if k2 = k then (k, v) :: rest else (k2, w) :: ainsert rest k v

/-- Python dict deletion `del d[k]` (and `os.remove` on a name-keyed file
map): removes the key's entry. -/
def aerase {α : Type} : List (String × α) → String → List (String × α)
  | [], _ => []
  | (k2, w) :: rest, k =>
      if k2 = k then aerase rest k else (k2, w) :: aerase rest k

/-- Models the Python builtin `str()` as used at the plain-text fallback of
`_on_analysis_finished` (src/main.py:2437).  Scalar cases follow CPython;
the container cases can never be reached from the classification code
(containers are caught by the structured branch first), so their rendering
is a placeholder. -/
def pyStr : PyValue → String
  | .none => "None"
  | .bool b => if b then "True" else "False"
  | .int n => toString n
  | .str s => s
  | .list _ => "<list>"
  | .dict _ => "<dict>"

/-- Python truthiness of `str`: `bool(s)` is false exactly for the empty
string; used for `if not html_content.strip()`. -/
def pyStripEmpty (s : String) : Bool := s.trim = ""

/-- Whether `result.get("infoscava_output_type") == "html"` holds: the key is
present and its value is the string literal html. -/
def isHtmlTag : Option PyValue → Bool
  | some (.str s) => s = "html"
  | _ => false

/-- Classification of one plugin result by `_on_analysis_finished`
(src/main.py:2401-2440).  `htmlOut` carries the flag of the empty-content
display variant; `htmlTypeMismatch` is the declared-HTML-but-content-not-a-
string error tab; `structured` is the JSON table branch for any other dict
or list; `text` is the stringified fallback. -/
inductive Classified where
  | htmlOut (content : String) (stripEmpty : Bool)
  | htmlTypeMismatch
  | structured (v : PyValue)
  | text (s : String)

/-- Translation of the per-result branch sequence of
`_on_analysis_finished` (src/main.py:2407-2440). -/
def classifyResult (result : PyValue) : Classified :=
  match result with
  | .dict kvs =>
    if isHtmlTag (alookup kvs "infoscava_output_type") then
      match alookup kvs "content" with
      | some (.str s) => .htmlOut s (pyStripEmpty s)
      | _ => .htmlTypeMismatch
    else .structured (.dict kvs)
  | .list xs => .structured (.list xs)
  | v => .text (pyStr v)

/-- A Python callable as stored in a plugin record.  The host calls it either
with two arguments (analysis pass) or with none (static HTML tab); either
call may raise, modelled by `Except` with the exception text. -/
structure PyFunc where
  call2 : String → List Nat → Except String PyValue
  call0 : Unit → Except String PyValue

/-- A module attribute as seen by `getattr` plus the `callable(func)` test. -/
inductive PyAttr where
  | func (f : PyFunc)
  | plain

/-- A loaded Python module: its attribute table. -/
structure PyModule where
  attrs : List (String × PyAttr)

/-- The module object that sits in `sys.modules` when `exec_module` raised
before populating it. -/
def PyModule.empty : PyModule := ⟨[]⟩

/-- Outcome of `importlib.util.spec_from_file_location` +
`module_from_spec` + `exec_module` on one source text. -/
inductive ImportOutcome where
  | specNone
  | execError (msg : String)
  | ok (m : PyModule)

/-- The Python import machinery, modelled as a pure function from the
artifact's source text to the import outcome. -/
structure Env where
  pyExec : String → ImportOutcome

/-- The raw `python_code` value of a manifest: the base64 text together with
the result of `base64.b64decode(...).decode(\x27utf-8\x27)` on it (`Option.none`
when decoding raises). -/
structure B64 where
  text : String
  decoded : Option String

/-- Models `base64.b64decode(b).decode("utf-8")` from the standard library:
succeeds with the decoded source or raises. -/
def b64decode (b : B64) : Except String String :=
  match b.decoded with
  | some c => .ok c
  | Option.none => .error "binascii.Error: invalid base64"

/-- A parsed `.infoscava` manifest: the JSON fields the manager reads, each
optional exactly as `dict.get` makes it. -/
structure Manifest where
  function_name : Option String
  type : Option String
  description : Option String
  tab_title : Option String
  python_code : Option B64

/-- Content of a manifest file on disk: `json.load` either raises
(malformed) or yields the parsed object. -/
inductive JsonFile where
  | malformed
  | parsed (m : Manifest)

/-- A file together with its `os.path.getmtime` value. -/
structure TimedFile (α : Type) where
  content : α
  mtime : Nat

/-- The plugin directory plus the persisted config file.  `manifests` holds
the `.infoscava` files (in directory-listing order), `artifacts` the
generated `.py` files, both keyed by plugin name. -/
structure FS where
  manifests : List (String × TimedFile JsonFile)
  artifacts : List (String × TimedFile String)
  config : Option (List String)

/-- A registered plugin: the record stored in `loaded_plugins`
(src/main.py:1212-1220). -/
structure PluginRecord where
  func : PyFunc
  type : String
  description : String
  json_path : String
  plugin_py_path : String
  tab_title : String

/-- The `PluginManager` state: registry, history, history capacity,
`sys.modules`, and the plugin directory. -/
structure PMState where
  loaded_plugins : List (String × PluginRecord)
  history_entries : List String
  max_plugin_history_entries : Nat
  sys_modules : List (String × PyModule)
  fs : FS

/-- Python slice `l[-m:]` for a nonnegative `m`: the whole list when `m = 0`
(since `-0 == 0`), otherwise the last `m` elements. -/
def pySliceLast {α : Type} (l : List α) (m : Nat) : List α :=
  if m = 0 then l else l.drop (l.length - m)

/-- The `[timestamp] message` format of one history entry. -/
def full_message (ts msg : String) : String := "[" ++ ts ++ "] " ++ msg

/-- `PluginManager._log` (src/main.py:1040-1047): append the timestamped
message and trim with `history_entries[-max:]` when the length exceeds the
capacity.  The UI append is not modelled. -/
def pmLog (ts msg : String) (s : PMState) : PMState :=
  let es := s.history_entries ++ [full_message ts msg]
  let es := if es.length > s.max_plugin_history_entries
            then pySliceLast es s.max_plugin_history_entries else es
  { s with history_entries := es }

/-- `PluginManager.update_settings` (src/main.py:1031-1038): set the new
capacity and trim with `history_entries[-new:]` when the current length
exceeds it. -/
def update_settings (s : PMState) (n : Nat) : PMState :=
  let s := { s with max_plugin_history_entries := n }
  if s.history_entries.length > n
  then { s with history_entries := pySliceLast s.history_entries n }
  else s

/-- One history-facing operation, for stating properties about arbitrary
interleavings of `_log` and `update_settings`. -/
inductive HistOp where
  | append (ts msg : String)
  | setCapacity (n : Nat)

/-- Apply one history operation. -/
def histStep (s : PMState) : HistOp → PMState
  | .append ts m => pmLog ts m s
  | .setCapacity n => update_settings s n

/-- Apply a sequence of history operations in order. -/
def histRun (s : PMState) (ops : List HistOp) : PMState := ops.foldl histStep s

/-- Set the persisted config file content. -/
def setConfig (s : PMState) (c : Option (List String)) : PMState :=
  { s with fs := { s.fs with config := c } }

/-- Write (create or overwrite) a manifest file. -/
def putManifest (s : PMState) (k : String) (f : TimedFile JsonFile) : PMState :=
  { s with fs := { s.fs with manifests := ainsert s.fs.manifests k f } }

/-- `os.remove` of a manifest file. -/
def delManifest (s : PMState) (k : String) : PMState :=
  { s with fs := { s.fs with manifests := aerase s.fs.manifests k } }

/-- Write (create or overwrite) a source artifact. -/
def putArtifact (s : PMState) (k : String) (f : TimedFile String) : PMState :=
  { s with fs := { s.fs with artifacts := ainsert s.fs.artifacts k f } }

/-- `os.remove` of a source artifact. -/
def delArtifact (s : PMState) (k : String) : PMState :=
  { s with fs := { s.fs with artifacts := aerase s.fs.artifacts k } }

/-- `sys.modules[k] = md`. -/
def putModule (s : PMState) (k : String) (md : PyModule) : PMState :=
  { s with sys_modules := ainsert s.sys_modules k md }

/-- `del sys.modules[k]`. -/
def delModule (s : PMState) (k : String) : PMState :=
  { s with sys_modules := aerase s.sys_modules k }

/-- `loaded_plugins[k] = r`. -/
def putPlugin (s : PMState) (k : String) (r : PluginRecord) : PMState :=
  { s with loaded_plugins := ainsert s.loaded_plugins k r }

/-- `del loaded_plugins[k]`. -/
def delPlugin (s : PMState) (k : String) : PMState :=
  { s with loaded_plugins := aerase s.loaded_plugins k }

/-- `PluginManager._save_plugin_config` (src/main.py:1100-1107): rewrite the
config file with the current registry key list, then log. -/
def save_plugin_config (ts : String) (s : PMState) : PMState :=
  pmLog ts "Plugin configuration saved."
    (setConfig s (some (s.loaded_plugins.map Prod.fst)))

/-- Hexadecimal digit of a value below 16. -/
def hexDigitChar (n : Nat) : Char :=
  if n < 10 then Char.ofNat (48 + n) else Char.ofNat (87 + n)

/-- Hexadecimal digit list of a number, most significant first; the fuel
bounds the digit count. -/
def natHexAux : Nat → Nat → List Char
  | _, 0 => []
  | n, fuel + 1 =>
      if n = 0 then [] else natHexAux (n / 16) fuel ++ [hexDigitChar (n % 16)]

/-- Models `hashlib.md5(name.encode()).hexdigest()` from the Python standard
library: an external deterministic digest.  The manager relies only on the
digest being a fixed function of the name, so it is modelled by an explicit
deterministic stand-in digest. -/
def md5hex (s : String) : String :=
  String.mk (natHexAux (s.data.foldl (fun a c => (a * 131 + c.toNat) % (2 ^ 64)) 7) 64)

/-- The module identity allocated for a load attempt of a plugin
(src/main.py:1186): a fixed function of the plugin name. -/
def module_name_of (name : String) : String :=
  "infoscava_plugin_" ++ md5hex name

/-- Python truthiness of the `function_name` manifest field as used by
`all([name, function_name])`: present and a non-empty string. -/
def fnNameOk : Option String → Bool
  | some f => !(f = "")
  | Option.none => false

/-- `spec_from_file_location` + `module_from_spec` + `exec_module` on the
artifact at the plugin name: a missing file makes `exec_module` raise. -/
def importArtifact (env : Env) (fs : FS) (name : String) : ImportOutcome :=
  match alookup fs.artifacts name with
  | Option.none => .execError "FileNotFoundError"
  | some tf => env.pyExec tf.content

/-- The sys.modules invalidation step of a load attempt
(src/main.py:1189-1192): drop any previously cached module under the
allocated module identity, logging when one was present. -/
def dropCached (ts module_name : String) (s : PMState) : PMState :=
  if (alookup s.sys_modules module_name).isSome then
    delModule (pmLog ts ("Removing existing module \x27" ++ module_name ++
      "\x27 from sys.modules before fresh import.") s) module_name
  else s

/-- `PluginManager._perform_dynamic_import_and_register`
(src/main.py:1170-1230).  Returns the new state and the success flag. -/
def perform_dynamic_import_and_register (env : Env) (ts name : String)
    (m : Manifest) (s : PMState) : PMState × Bool :=
  let plugin_type := m.type.getD "analysis_plugin"
  let description := m.description.getD "No description provided."
  let tab_title := m.tab_title.getD name
  if !(!(name = "") && fnNameOk m.function_name) then
    (pmLog ts ("Skipping plugin \x27" ++ name ++
      "\x27: Missing \x27name\x27 or \x27function_name\x27 in JSON data.") s, false)
  else
    let function_name := m.function_name.getD ""
    let module_name := module_name_of name
    let s := dropCached ts module_name s
    match importArtifact env s.fs name with
    | .specNone =>
        (pmLog ts ("Could not create module spec for \x27" ++ name ++ ".py\x27.") s, false)
    | .execError e =>
        -- sys.modules[module_name] = module happens before exec_module, so
        -- the half-initialized module stays cached when exec raises.
        let s := putModule s module_name PyModule.empty
        (pmLog ts ("Error during dynamic import/registration of plugin \x27" ++
          name ++ "\x27 from \x27" ++ name ++ ".py\x27. " ++ e) s, false)
    | .ok md =>
        let s := putModule s module_name md
        match alookup md.attrs function_name with
        | some (.func f) =>
            let r : PluginRecord :=
              ⟨f, plugin_type, description, name, name, tab_title⟩
            let s := putPlugin s name r
            (pmLog ts ("Successfully loaded plugin: " ++ name ++ " (Type: " ++
              plugin_type ++ ") from " ++ name ++ ".py.") s, true)
        | _ =>
            (pmLog ts ("Function \x27" ++ function_name ++
              "\x27 not found or not callable in module \x27" ++ name ++ ".py\x27.") s, false)

/-- `PluginManager.delete_plugin` (src/main.py:1342-1377). -/
def delete_plugin (ts name : String) (s : PMState) : PMState × Bool :=
  match alookup s.loaded_plugins name with
  | Option.none =>
      (pmLog ts ("Plugin \x27" ++ name ++ "\x27 not found for deletion.") s, false)
  | some pd =>
      let module_name := module_name_of name
      let s := if (alookup s.sys_modules module_name).isSome then
          pmLog ts ("Unloaded module \x27" ++ module_name ++ "\x27 from sys.modules.")
            (delModule s module_name)
        else s
      let s := if (alookup s.fs.manifests pd.json_path).isSome then
          pmLog ts ("Deleted plugin definition file: " ++ pd.json_path)
            (delManifest s pd.json_path)
        else s
      let s := if (alookup s.fs.artifacts pd.plugin_py_path).isSome then
          pmLog ts ("Deleted permanent plugin Python file: " ++ pd.plugin_py_path)
            (delArtifact s pd.plugin_py_path)
        else s
      let s := delPlugin s name
      let s := save_plugin_config ts s
      let s := pmLog ts ("Plugin \x27" ++ name ++ "\x27 successfully deleted.") s
      (s, true)

/-- Outcome of the artifact materialization step of the disk scan: the loop
either skips the plugin (decode failure, `continue`) or proceeds to
the dynamic load with the write flag of line 1134. -/
inductive MatOutcome where
  | skip (s : PMState)
  | proceed (s : PMState) (wrote : Bool)

/-- The staleness check and artifact write of
`_load_plugins_from_disk_and_config` (src/main.py:1133-1150), for one
manifest of mtime `mmtime` with raw payload `b`, at current time `now`. -/
def materialize_py (ts : String) (now : Nat) (name : String) (mmtime : Nat)
    (b : B64) (s : PMState) : MatOutcome :=
  let p :=
    match alookup s.fs.artifacts name with
    | Option.none =>
        (pmLog ts ("Python file for \x27" ++ name ++ "\x27 not found. Will create.") s, true)
    | some af =>
        if mmtime > af.mtime then
          (pmLog ts ("\x27" ++ name ++ ".infoscava\x27 is newer than \x27" ++ name ++
            ".py\x27. Will update Python file.") s, true)
        else (s, false)
  if p.2 then
    match b64decode b with
    | .error e =>
        .skip (pmLog ts ("Error decoding/writing Python code for \x27" ++ name ++
          "\x27: " ++ e) p.1)
    | .ok code =>
        .proceed (pmLog ts ("Updated plugin Python code for: " ++ name)
          (putArtifact p.1 name ⟨code, now⟩)) true
  else .proceed p.1 false

/-- The loop body of `_load_plugins_from_disk_and_config`
(src/main.py:1118-1162) for one directory entry. -/
def scan_one (env : Env) (ts : String) (now : Nat) (s : PMState)
    (entry : String × TimedFile JsonFile) : PMState :=
  match entry.2.content with
  | .malformed =>
      pmLog ts ("Error parsing .infoscava file \x27" ++ entry.1 ++
        ".infoscava\x27 (JSON error).") s
  | .parsed m =>
    match m.python_code with
    | Option.none =>
        pmLog ts ("Skipping \x27" ++ entry.1 ++
          ".infoscava\x27: Missing \x27python_code\x27 in .infoscava file.") s
    | some b =>
      if b.text = "" then
        pmLog ts ("Skipping \x27" ++ entry.1 ++
          ".infoscava\x27: Missing \x27python_code\x27 in .infoscava file.") s
      else
        match materialize_py ts now entry.1 entry.2.mtime b s with
        | .skip s => s
        | .proceed s _ =>
          match perform_dynamic_import_and_register env ts entry.1 m s with
          | (s, true) => s
          | (s, false) =>
              pmLog ts ("Failed to load plugin \x27" ++ entry.1 ++
                "\x27 from disk. Check history.") s

/-- `PluginManager._load_plugins_from_disk_and_config`
(src/main.py:1109-1167): reset the registry, scan the directory listing,
load each manifest, then rewrite the config file. -/
def load_plugins_from_disk_and_config (env : Env) (ts : String) (now : Nat)
    (s : PMState) : PMState :=
  let s := pmLog ts "Scanning plugin directory for .infoscava files..." s
  let s := { s with loaded_plugins := [] }
  let entries := s.fs.manifests
  let s := entries.foldl (scan_one env ts now) s
  let s := save_plugin_config ts s
  let s := pmLog ts "Finished scanning and loading plugins from disk." s
  s

/-- The argument of `load_new_plugin_file`: whether the source path exists,
the plugin name (the filename stem) and the file content. -/
structure LoadSource where
  src_exists : Bool
  name : String
  content : JsonFile

/-- Cleanup arm shared by the malformed-JSON and missing-payload branches of
`load_new_plugin_file`: remove the copied manifest and log it. -/
def removeCopiedManifest (ts name : String) (s : PMState) : PMState :=
  pmLog ts ("Removed malformed copied .infoscava file: " ++ name ++ ".infoscava")
    (delManifest s name)

/-- Cleanup arm of the generic except of `load_new_plugin_file`
(src/main.py:1310-1314): silently remove both files when present. -/
def cleanup_exception (ts name : String) (s : PMState) : PMState :=
  let s := if (alookup s.fs.manifests name).isSome then delManifest s name else s
  if (alookup s.fs.artifacts name).isSome then delArtifact s name else s

/-- Cleanup arm of the failed-import branch of `load_new_plugin_file`
(src/main.py:1287-1293): remove both files when present, logging each. -/
def cleanup_failed_copy (ts name : String) (s : PMState) : PMState :=
  let s := if (alookup s.fs.manifests name).isSome then
      pmLog ts ("Removed problematic copied .infoscava file: " ++ name ++
        ".infoscava") (delManifest s name)
    else s
  if (alookup s.fs.artifacts name).isSome then
    pmLog ts ("Removed problematic plugin Python file: " ++ name ++ ".py")
      (delArtifact s name)
  else s

/-- `PluginManager.load_new_plugin_file` (src/main.py:1233-1315).
`overwriteYes` is the user's answer to the overwrite question (only
consulted when a same-named manifest already exists). -/
def load_new_plugin_file (env : Env) (ts : String) (now : Nat)
    (src : LoadSource) (overwriteYes : Bool) (s : PMState) : PMState × Bool :=
  if !src.src_exists then
    (pmLog ts ("Error: Source plugin file not found at " ++ src.name ++
      ".infoscava.") s, false)
  else
    let name := src.name
    if (alookup s.fs.manifests name).isSome && !overwriteYes then
      (pmLog ts ("Plugin load cancelled: \x27" ++ name ++
        "\x27 already exists and overwrite declined.") s, false)
    else
      -- shutil.copy writes the destination now, so its mtime is `now`.
      let s := putManifest s name ⟨src.content, now⟩
      let s := pmLog ts ("Copied plugin definition file to: " ++ name ++
        ".infoscava") s
      match src.content with
      | .malformed =>
          -- json.load of the copied file raises JSONDecodeError.
          let s := pmLog ts ("Error parsing plugin JSON \x27" ++ name ++
            ".infoscava\x27 (JSON error).") s
          (removeCopiedManifest ts name s, false)
      | .parsed m =>
        match m.python_code with
        | Option.none =>
            let s := pmLog ts ("Malformed plugin \x27" ++ name ++
              "\x27: Missing \x27python_code\x27.") s
            (removeCopiedManifest ts name s, false)
        | some b =>
          if b.text = "" then
            let s := pmLog ts ("Malformed plugin \x27" ++ name ++
              "\x27: Missing \x27python_code\x27.") s
            (removeCopiedManifest ts name s, false)
          else
            match b64decode b with
            | .error e =>
                -- b64decode raises: the generic except removes both files
                -- when they exist (which also removes a pre-existing
                -- artifact of an overwritten plugin).
                let s := pmLog ts ("An unexpected error occurred while copying or loading the plugin \x27"
                  ++ name ++ "\x27: " ++ e) s
                (cleanup_exception ts name s, false)
            | .ok code =>
                let s := putArtifact s name ⟨code, now⟩
                let s := pmLog ts ("Saved plugin Python code to: " ++ name ++ ".py") s
                match perform_dynamic_import_and_register env ts name m s with
                | (s, true) =>
                    (save_plugin_config ts s, true)
                | (s, false) =>
                    let s := pmLog ts ("Failed to load copied plugin \x27" ++ name ++
                      "\x27. Check Plugin History tab for details.") s
                    (cleanup_failed_copy ts name s, false)

/-- `PluginManager.reload_plugin` (src/main.py:1379-1428). -/
def reload_plugin (env : Env) (ts : String) (now : Nat) (name : String)
    (s : PMState) : PMState × Bool :=
  match alookup s.loaded_plugins name with
  | Option.none =>
      (pmLog ts ("Plugin \x27" ++ name ++ "\x27 not found for reloading.") s, false)
  | some pd =>
    let s := pmLog ts ("Attempting to reload plugin: " ++ name ++ "...") s
    match alookup s.fs.manifests pd.json_path with
    | Option.none =>
        -- open() raises FileNotFoundError, caught by the generic except.
        (pmLog ts ("Error during reload of plugin \x27" ++ name ++
          "\x27: FileNotFoundError") s, false)
    | some tf =>
      match tf.content with
      | .malformed =>
          (pmLog ts ("Error during reload of plugin \x27" ++ name ++
            "\x27: JSONDecodeError") s, false)
      | .parsed m =>
        match m.python_code with
        | Option.none =>
            -- base64.b64decode(None) raises TypeError, caught below.
            (pmLog ts ("Error during reload of plugin \x27" ++ name ++
              "\x27: TypeError") s, false)
        | some b =>
          match b64decode b with
          | .error e =>
              (pmLog ts ("Error during reload of plugin \x27" ++ name ++
                "\x27: " ++ e) s, false)
          | .ok code =>
            let s := putArtifact s pd.plugin_py_path ⟨code, now⟩
            let s := pmLog ts ("Rewrote plugin Python code for \x27" ++ name ++
              "\x27 during reload.") s
            match perform_dynamic_import_and_register env ts name m s with
            | (s, true) =>
                let s := pmLog ts ("Plugin \x27" ++ name ++ "\x27 reloaded successfully.") s
                (save_plugin_config ts s, true)
            | (s, false) =>
                let s := pmLog ts ("Failed to reload plugin \x27" ++ name ++
                  "\x27. Check Plugin History tab for details.") s
                let s := if (alookup s.loaded_plugins name).isSome then
                    save_plugin_config ts (delPlugin s name)
                  else s
                (s, false)

/-- `PluginManager.reload_all_plugins` (src/main.py:1430-1436). -/
def reload_all_plugins (env : Env) (ts : String) (now : Nat) (s : PMState) : PMState :=
  let s := pmLog ts "Initiating full plugin reload..." s
  let s := load_plugins_from_disk_and_config env ts now s
  pmLog ts "All plugins reloaded." s

/-- The error string stored as a failing plugin's result by
`execute_analysis_plugins` (src/main.py:1336); the basename rendering of the
path is elided. -/
def execErrMsg (name filepath e : String) : String :=
  "Error executing analysis plugin \x27" ++ name ++ "\x27 for file \x27" ++
    filepath ++ "\x27: " ++ e

/-- The value one analysis plugin contributes to the result mapping: its
return value, or the logged error string when the call raises. -/
def execResultOf (fp : String) (bs : List Nat) (name : String)
    (d : PluginRecord) : PyValue :=
  match d.func.call2 fp bs with
  | .ok v => v
  | .error e => .str (execErrMsg name fp e)

/-- The loop of `execute_analysis_plugins` (src/main.py:1327-1339) over a
snapshot of the registry, threading the manager state for the `_log` calls
and accumulating the result mapping in iteration order. -/
def execPlugins (ts fp : String) (bs : List Nat) :
    List (String × PluginRecord) → PMState → PMState × List (String × PyValue)
  | [], st => (st, [])
  | (n, d) :: rest, st =>
    if d.type = "analysis_plugin" then
      let st := pmLog ts ("Executing analysis plugin: " ++ n ++ " for file \x27" ++
        fp ++ "\x27...") st
      match d.func.call2 fp bs with
      | .ok v =>
          let st := pmLog ts ("Plugin \x27" ++ n ++ "\x27 executed successfully for \x27" ++
            fp ++ "\x27.") st
          let r := execPlugins ts fp bs rest st
          (r.1, (n, v) :: r.2)
      | .error e =>
          let msg := execErrMsg n fp e
          let st := pmLog ts msg st
          let r := execPlugins ts fp bs rest st
          (r.1, (n, .str msg) :: r.2)
    else execPlugins ts fp bs rest st

/-- `PluginManager.execute_analysis_plugins` (src/main.py:1324-1340). -/
def execute_analysis_plugins (ts fp : String) (bs : List Nat) (s : PMState) :
    PMState × List (String × PyValue) :=
  execPlugins ts fp bs s.loaded_plugins s

/-- `PluginManager.get_plugins_metadata` (src/main.py:1317-1322). -/
def get_plugins_metadata (s : PMState) : List (String × String × String) :=
  s.loaded_plugins.map (fun p => (p.1, p.2.description, p.2.type))

/-- Outcome of `_add_static_plugin_tab_if_applicable`
(src/main.py:2519-2548); the tab-widget effects are out of the model, the
outcome records whether and how the entry point was invoked. -/
inductive StaticTabOutcome where
  | alreadyAdded
  | notApplicable
  | created (html : String)
  | notString
  | execFailed (e : String)

/-- `InfoscavaMainWindow._add_static_plugin_tab_if_applicable`
(src/main.py:2519-2548): the entry point runs only for a loaded plugin of
type static_html_plugin whose tab is not already present. -/
def add_static_plugin_tab_if_applicable (staticTabs : List String)
    (name : String) (s : PMState) : StaticTabOutcome :=
  if name ∈ staticTabs then .alreadyAdded
  else
    match alookup s.loaded_plugins name with
    | Option.none => .notApplicable
    | some info =>
      if info.type = "static_html_plugin" then
        match info.func.call0 () with
        | .ok (.str h) => .created h
        | .ok _ => .notString
        | .error e => .execFailed e
      else .notApplicable

/-- Entry point used in concrete test states: returns the string Hello. -/
def helloFunc : PyFunc :=
  ⟨fun _ _ => .ok (.str "Hello"), fun _ => .ok (.str "Hello")⟩

/-- Entry point that always raises. -/
def boomFunc : PyFunc :=
  ⟨fun _ _ => .error "RuntimeError: boom", fun _ => .error "RuntimeError: boom"⟩

/-- Entry point returning an integer. -/
def sevenFunc : PyFunc := ⟨fun _ _ => .ok (.int 7), fun _ => .ok (.int 7)⟩

/-- Registered analysis plugin returning Hello. -/
def recHello (n : String) : PluginRecord :=
  ⟨helloFunc, "analysis_plugin", "demo plugin", n, n, n⟩

/-- Registered analysis plugin that raises. -/
def recBoom (n : String) : PluginRecord :=
  ⟨boomFunc, "analysis_plugin", "raises", n, n, n⟩

/-- Registered analysis plugin returning 7. -/
def recSeven (n : String) : PluginRecord :=
  ⟨sevenFunc, "analysis_plugin", "seven", n, n, n⟩

/-- A module exposing one callable attribute named analyze. -/
def modA : PyModule := ⟨[("analyze", .func helloFunc)]⟩

/-- Import machinery that always succeeds with modA. -/
def envA : Env := ⟨fun _ => .ok modA⟩

/-- Import machinery whose exec always raises. -/
def envBoom : Env := ⟨fun _ => .execError "SyntaxError: invalid syntax"⟩

/-- A manifest declaring entry point analyze with a decodable payload. -/
def manifestA : Manifest :=
  ⟨some "analyze", Option.none, Option.none, Option.none, some ⟨"Zm9v", some "foo"⟩⟩

/-- A manifest with no function_name but a decodable payload. -/
def manifestNoFn : Manifest :=
  ⟨Option.none, Option.none, Option.none, Option.none, some ⟨"Zm9v", some "foo"⟩⟩

/-- Baseline state: empty registry and directory, config mirroring the empty
registry, default history capacity 200. -/
def state0 : PMState := ⟨[], [], 200, [], ⟨[], [], some []⟩⟩

/-- State with three active analysis plugins, the middle one raising. -/
def stateExec : PMState :=
  ⟨[("p1", recHello "p1"), ("p2", recBoom "p2"), ("p3", recSeven "p3")],
   [], 200, [], ⟨[], [], some ["p1", "p2", "p3"]⟩⟩

/-- State with one loaded plugin a whose files are on disk. -/
def stateA : PMState :=
  ⟨[("a", recHello "a")], [], 200, [],
   ⟨[("a", ⟨.parsed manifestA, 0⟩)], [("a", ⟨"old code", 0⟩)], some ["a"]⟩⟩

/-- State with one manifest and artifact demo on disk and nothing loaded. -/
def stateDemo : PMState :=
  ⟨[], [], 200, [], ⟨[("demo", ⟨.parsed manifestA, 0⟩)], [("demo", ⟨"code", 0⟩)], some []⟩⟩

/-- Source argument: a new manifest a missing function_name. -/
def srcBadFn : LoadSource := ⟨true, "a", .parsed manifestNoFn⟩

/-- A manifest whose declared type is neither analysis_plugin nor
static_html_plugin. -/
def manifestWeird : Manifest :=
  ⟨some "analyze", some "fancy_plugin", Option.none, Option.none,
   some ⟨"Zm9v", some "foo"⟩⟩

/-- A registered plugin of the unknown type fancy_plugin. -/
def recWeird : PluginRecord := ⟨helloFunc, "fancy_plugin", "weird", "w", "w", "w"⟩

/-- State with one registered plugin of unknown type. -/
def stateWeird : PMState := ⟨[("w", recWeird)], [], 200, [], ⟨[], [], some ["w"]⟩⟩

/-- Baseline state with history capacity 2. -/
def stateCap2 : PMState := ⟨[], [], 2, [], ⟨[], [], some []⟩⟩

/-- The on-disk config file mirrors the registry key set (spec section 3,
Config invariant). -/
def ConfigMirrors (s : PMState) : Prop :=
  s.fs.config = some (s.loaded_plugins.map Prod.fst)

/-- Capacity arguments that the settings layer can produce (the settings
spinbox has range 1..10^9 and the settings loader rejects values below 1,
src/main.py:1523,1585). -/
def histOpCapOk : HistOp → Bool
  | .setCapacity n => decide (1 ≤ n)
  | .append _ _ => true

@[simp] theorem pmLog_fs (ts m : String) (s : PMState) : (pmLog ts m s).fs = s.fs := rfl

@[simp] theorem pmLog_loaded (ts m : String) (s : PMState) :
    (pmLog ts m s).loaded_plugins = s.loaded_plugins := rfl

@[simp] theorem pmLog_sys (ts m : String) (s : PMState) :
    (pmLog ts m s).sys_modules = s.sys_modules := rfl

@[simp] theorem pmLog_max (ts m : String) (s : PMState) :
    (pmLog ts m s).max_plugin_history_entries = s.max_plugin_history_entries := rfl

@[simp] theorem putManifest_config (s : PMState) (k : String) (f : TimedFile JsonFile) :
    (putManifest s k f).fs.config = s.fs.config := rfl

@[simp] theorem putManifest_artifacts (s : PMState) (k : String) (f : TimedFile JsonFile) :
    (putManifest s k f).fs.artifacts = s.fs.artifacts := rfl

@[simp] theorem putManifest_manifests (s : PMState) (k : String) (f : TimedFile JsonFile) :
    (putManifest s k f).fs.manifests = ainsert s.fs.manifests k f := rfl

@[simp] theorem putManifest_loaded (s : PMState) (k : String) (f : TimedFile JsonFile) :
    (putManifest s k f).loaded_plugins = s.loaded_plugins := rfl

@[simp] theorem putManifest_sys (s : PMState) (k : String) (f : TimedFile JsonFile) :
    (putManifest s k f).sys_modules = s.sys_modules := rfl

@[simp] theorem delManifest_config (s : PMState) (k : String) :
    (delManifest s k).fs.config = s.fs.config := rfl

@[simp] theorem delManifest_artifacts (s : PMState) (k : String) :
    (delManifest s k).fs.artifacts = s.fs.artifacts := rfl

@[simp] theorem delManifest_manifests (s : PMState) (k : String) :
    (delManifest s k).fs.manifests = aerase s.fs.manifests k := rfl

@[simp] theorem delManifest_loaded (s : PMState) (k : String) :
    (delManifest s k).loaded_plugins = s.loaded_plugins := rfl

@[simp] theorem delManifest_sys (s : PMState) (k : String) :
    (delManifest s k).sys_modules = s.sys_modules := rfl

@[simp] theorem putArtifact_config (s : PMState) (k : String) (f : TimedFile String) :
    (putArtifact s k f).fs.config = s.fs.config := rfl

@[simp] theorem putArtifact_manifests (s : PMState) (k : String) (f : TimedFile String) :
    (putArtifact s k f).fs.manifests = s.fs.manifests := rfl

@[simp] theorem putArtifact_artifacts (s : PMState) (k : String) (f : TimedFile String) :
    (putArtifact s k f).fs.artifacts = ainsert s.fs.artifacts k f := rfl

@[simp] theorem putArtifact_loaded (s : PMState) (k : String) (f : TimedFile String) :
    (putArtifact s k f).loaded_plugins = s.loaded_plugins := rfl

@[simp] theorem putArtifact_sys (s : PMState) (k : String) (f : TimedFile String) :
    (putArtifact s k f).sys_modules = s.sys_modules := rfl

@[simp] theorem delArtifact_config (s : PMState) (k : String) :
    (delArtifact s k).fs.config = s.fs.config := rfl

@[simp] theorem delArtifact_manifests (s : PMState) (k : String) :
    (delArtifact s k).fs.manifests = s.fs.manifests := rfl

@[simp] theorem delArtifact_artifacts (s : PMState) (k : String) :
    (delArtifact s k).fs.artifacts = aerase s.fs.artifacts k := rfl

@[simp] theorem delArtifact_loaded (s : PMState) (k : String) :
    (delArtifact s k).loaded_plugins = s.loaded_plugins := rfl

@[simp] theorem delArtifact_sys (s : PMState) (k : String) :
    (delArtifact s k).sys_modules = s.sys_modules := rfl

@[simp] theorem putModule_fs (s : PMState) (k : String) (md : PyModule) :
    (putModule s k md).fs = s.fs := rfl

@[simp] theorem putModule_loaded (s : PMState) (k : String) (md : PyModule) :
    (putModule s k md).loaded_plugins = s.loaded_plugins := rfl

@[simp] theorem putModule_sys (s : PMState) (k : String) (md : PyModule) :
    (putModule s k md).sys_modules = ainsert s.sys_modules k md := rfl

@[simp] theorem delModule_fs (s : PMState) (k : String) : (delModule s k).fs = s.fs := rfl

@[simp] theorem delModule_loaded (s : PMState) (k : String) :
    (delModule s k).loaded_plugins = s.loaded_plugins := rfl

@[simp] theorem delModule_sys (s : PMState) (k : String) :
    (delModule s k).sys_modules = aerase s.sys_modules k := rfl

@[simp] theorem putPlugin_fs (s : PMState) (k : String) (r : PluginRecord) :
    (putPlugin s k r).fs = s.fs := rfl

@[simp] theorem putPlugin_loaded (s : PMState) (k : String) (r : PluginRecord) :
    (putPlugin s k r).loaded_plugins = ainsert s.loaded_plugins k r := rfl

@[simp] theorem putPlugin_sys (s : PMState) (k : String) (r : PluginRecord) :
    (putPlugin s k r).sys_modules = s.sys_modules := rfl

@[simp] theorem delPlugin_fs (s : PMState) (k : String) : (delPlugin s k).fs = s.fs := rfl

@[simp] theorem delPlugin_loaded (s : PMState) (k : String) :
    (delPlugin s k).loaded_plugins = aerase s.loaded_plugins k := rfl

@[simp] theorem delPlugin_sys (s : PMState) (k : String) :
    (delPlugin s k).sys_modules = s.sys_modules := rfl

@[simp] theorem save_config (ts : String) (s : PMState) :
    (save_plugin_config ts s).fs.config = some (s.loaded_plugins.map Prod.fst) := rfl

@[simp] theorem save_manifests (ts : String) (s : PMState) :
    (save_plugin_config ts s).fs.manifests = s.fs.manifests := rfl

@[simp] theorem save_artifacts (ts : String) (s : PMState) :
    (save_plugin_config ts s).fs.artifacts = s.fs.artifacts := rfl

@[simp] theorem save_loaded (ts : String) (s : PMState) :
    (save_plugin_config ts s).loaded_plugins = s.loaded_plugins := rfl

@[simp] theorem save_sys (ts : String) (s : PMState) :
    (save_plugin_config ts s).sys_modules = s.sys_modules := rfl

theorem alookup_ainsert_self {α : Type} (l : List (String × α)) (k : String) (v : α) :
    alookup (ainsert l k v) k = some v := by
  induction l with
  | nil => simp [ainsert, alookup]
  | cons hd tl ih =>
    obtain ⟨k2, w⟩ := hd
    by_cases h : k2 = k
    · simp [ainsert, h, alookup]
    · simp [ainsert, h, alookup, ih]

theorem alookup_ainsert_ne {α : Type} (l : List (String × α)) (k k2 : String) (v : α)
    (h : ¬ k2 = k) : alookup (ainsert l k v) k2 = alookup l k2 := by
  have hne : ¬ k = k2 := fun hh => h hh.symm
  induction l with
  | nil => simp [ainsert, alookup, hne]
  | cons hd tl ih =>
    obtain ⟨k3, w⟩ := hd
    by_cases h3 : k3 = k
    · subst h3
      simp [ainsert, alookup, hne]
    · simp [ainsert, h3, alookup, ih]

theorem alookup_aerase_self {α : Type} (l : List (String × α)) (k : String) :
    alookup (aerase l k) k = Option.none := by
  induction l with
  | nil => rfl
  | cons hd tl ih =>
    obtain ⟨k2, w⟩ := hd
    by_cases h : k2 = k
    · simpa [aerase, h] using ih
    · simpa [aerase, alookup, h] using ih

theorem alookup_aerase_ne {α : Type} (l : List (String × α)) (k k2 : String)
    (h : ¬ k2 = k) : alookup (aerase l k) k2 = alookup l k2 := by
  have hne : ¬ k = k2 := fun hh => h hh.symm
  induction l with
  | nil => rfl
  | cons hd tl ih =>
    obtain ⟨k3, w⟩ := hd
    by_cases h3 : k3 = k
    · subst h3
      simpa [aerase, alookup, hne] using ih
    · simp [aerase, h3, alookup, ih]

theorem mem_ainsert_self {α : Type} (l : List (String × α)) (k : String) (v : α) :
    (k, v) ∈ ainsert l k v := by
  induction l with
  | nil => simp [ainsert]
  | cons hd tl ih =>
    obtain ⟨k2, w⟩ := hd
    by_cases h : k2 = k
    · simp [ainsert, h]
    · simp [ainsert, h]
      exact Or.inr ih

/-- C7: result classification is a total function of the plugin's returned
value: a dict whose infoscava_output_type entry is the string html with a
string content entry classifies as HTML output; such a dict whose content
entry is missing or not a string classifies as the output-type-mismatch
error (a tab, not an exception, so the pass continues); any other dict and
any list classify as structured output; every other value is stringified
and classifies as text output. -/
theorem classify_plugin_result_total :
    (∀ kvs s, isHtmlTag (alookup kvs "infoscava_output_type") = true →
        alookup kvs "content" = some (.str s) →
        classifyResult (.dict kvs) = .htmlOut s (pyStripEmpty s))
    ∧ (∀ kvs, isHtmlTag (alookup kvs "infoscava_output_type") = true →
        (∀ s, ¬ alookup kvs "content" = some (.str s)) →
        classifyResult (.dict kvs) = .htmlTypeMismatch)
    ∧ (∀ kvs, isHtmlTag (alookup kvs "infoscava_output_type") = false →
        classifyResult (.dict kvs) = .structured (.dict kvs))
    ∧ (∀ xs, classifyResult (.list xs) = .structured (.list xs))
    ∧ (∀ v, (∀ kvs, ¬ v = PyValue.dict kvs) → (∀ xs, ¬ v = PyValue.list xs) →
        classifyResult v = .text (pyStr v)) := by
  refine ⟨?_, ?_, ?_, ?_, ?_⟩
  · intro kvs s htag hc
    simp [classifyResult, htag, hc]
  · intro kvs htag hnc
    simp only [classifyResult, htag, if_true]
  · intro kvs htag
    simp [classifyResult, htag]
  · intro xs
    rfl
  · intro v h1 h2
    cases v with
    | dict kvs => exact absurd rfl (h1 kvs)
    | list xs => exact absurd rfl (h2 xs)
    | none => rfl
    | bool b => rfl
    | int n => rfl
    | str s => rfl

/-- Witness for C7: the three spec examples plus the mismatch case, at
concrete inputs. -/
theorem classify_plugin_result_total_witness :
    classifyResult (.dict [("infoscava_output_type", .str "html"),
        ("content", .str "<b>x</b>")])
      = .htmlOut "<b>x</b>" (pyStripEmpty "<b>x</b>")
    ∧ classifyResult (.dict [("infoscava_output_type", .str "html"),
        ("content", .int 3)]) = .htmlTypeMismatch
    ∧ classifyResult (.list [.dict [("a", .int 1)], .dict [("a", .int 2)]])
      = .structured (.list [.dict [("a", .int 1)], .dict [("a", .int 2)]])
    ∧ classifyResult (.str "plain") = .text (pyStr (.str "plain")) := by
  refine ⟨?_, ?_, ?_, ?_⟩
  · exact classify_plugin_result_total.1 _ "<b>x</b>" rfl rfl
  · refine classify_plugin_result_total.2.1 _ rfl ?_
    intro s h
    rw [show alookup [("infoscava_output_type", PyValue.str "html"),
        ("content", PyValue.int 3)] "content" = some (.int 3) from rfl] at h
    exact PyValue.noConfusion (Option.some.inj h)
  · exact classify_plugin_result_total.2.2.2.1 _
  · exact classify_plugin_result_total.2.2.2.2 _
      (fun kvs h => PyValue.noConfusion h) (fun xs h => PyValue.noConfusion h)

/-- C4: in the non-forced disk scan, for a manifest with a decodable
payload the artifact is written exactly when it is absent or strictly older
than the manifest, and afterwards an artifact exists whose modification
time is at least the manifest modification time (given that the scan runs
no earlier than the manifest write). -/
theorem materialize_staleness_check (ts : String) (now : Nat) (name : String)
    (mmtime : Nat) (b : B64) (s : PMState) (code : String)
    (hdec : b64decode b = .ok code) (hnow : mmtime ≤ now) :
    ∃ s2 wrote, materialize_py ts now name mmtime b s = .proceed s2 wrote
      ∧ (wrote = true ↔ (alookup s.fs.artifacts name = Option.none
            ∨ ∃ af, alookup s.fs.artifacts name = some af ∧ af.mtime < mmtime))
      ∧ ∃ af2, alookup s2.fs.artifacts name = some af2 ∧ mmtime ≤ af2.mtime := by
  cases hl : alookup s.fs.artifacts name with
  | none =>
      have hstep : materialize_py ts now name mmtime b s =
          .proceed (pmLog ts ("Updated plugin Python code for: " ++ name)
            (putArtifact (pmLog ts ("Python file for \x27" ++ name ++
              "\x27 not found. Will create.") s) name ⟨code, now⟩)) true := by
        unfold materialize_py
        rw [hl, hdec]
        rfl
      refine ⟨_, true, hstep, ⟨fun _ => Or.inl rfl, fun _ => rfl⟩, ?_⟩
      exact ⟨⟨code, now⟩, by simp [alookup_ainsert_self], hnow⟩
  | some af =>
      by_cases hcmp : af.mtime < mmtime
      · have hstep : materialize_py ts now name mmtime b s =
            .proceed (pmLog ts ("Updated plugin Python code for: " ++ name)
              (putArtifact (pmLog ts ("\x27" ++ name ++ ".infoscava\x27 is newer than \x27"
                ++ name ++ ".py\x27. Will update Python file.") s) name ⟨code, now⟩)) true := by
          unfold materialize_py
          rw [hl]
          simp only [gt_iff_lt, if_pos hcmp]
          rw [hdec]
          rfl
        refine ⟨_, true, hstep, ⟨fun _ => Or.inr ⟨af, rfl, hcmp⟩, fun _ => rfl⟩, ?_⟩
        exact ⟨⟨code, now⟩, by simp [alookup_ainsert_self], hnow⟩
      · have hstep : materialize_py ts now name mmtime b s = .proceed s false := by
          unfold materialize_py
          rw [hl]
          simp [hcmp]
        refine ⟨s, false, hstep, ?_, ?_⟩
        · refine ⟨fun h => absurd h (by simp), fun h => ?_⟩
          rcases h with h | ⟨af2, haf2, hlt⟩
          · exact Option.noConfusion h
          · exact absurd (Option.some.inj haf2 ▸ hlt) hcmp
        · exact ⟨af, hl, Nat.le_of_not_lt hcmp⟩

/-- Witness for C4: a stale artifact (mtime 0) against a newer manifest
(mtime 5), scanned at time 9. -/
theorem materialize_staleness_check_witness :
    ∃ s2 wrote, materialize_py "t" 9 "demo" 5 ⟨"Zm9v", some "foo"⟩ stateDemo
        = .proceed s2 wrote
      ∧ (wrote = true ↔ (alookup stateDemo.fs.artifacts "demo" = Option.none
            ∨ ∃ af, alookup stateDemo.fs.artifacts "demo" = some af ∧ af.mtime < 5))
      ∧ ∃ af2, alookup s2.fs.artifacts "demo" = some af2 ∧ 5 ≤ af2.mtime :=
  materialize_staleness_check "t" 9 "demo" 5 ⟨"Zm9v", some "foo"⟩ stateDemo "foo"
    rfl (by decide)

/-- Counterexample for C8: deleting an unknown plugin name returns false
but does change state, because the not-found branch appends a history
entry; here the history grows from empty to one entry. -/
theorem delete_unknown_appends_history :
    (delete_plugin "t" "ghost" state0).2 = false
    ∧ ¬ (delete_plugin "t" "ghost" state0).1.history_entries
        = state0.history_entries := by
  constructor
  · rfl
  · decide

/-- C8 (amended): deleting an unknown plugin name returns false and leaves
the registry, the config file, the manifest and artifact files and the
module cache unchanged; the only state change is the history entry logged
by the not-found branch. -/
theorem delete_unknown_false_state_preserved (ts name : String) (s : PMState)
    (h : alookup s.loaded_plugins name = Option.none) :
    delete_plugin ts name s
      = (pmLog ts ("Plugin \x27" ++ name ++ "\x27 not found for deletion.") s, false)
    ∧ (delete_plugin ts name s).1.loaded_plugins = s.loaded_plugins
    ∧ (delete_plugin ts name s).1.fs = s.fs
    ∧ (delete_plugin ts name s).1.sys_modules = s.sys_modules := by
  have hstep : delete_plugin ts name s
      = (pmLog ts ("Plugin \x27" ++ name ++ "\x27 not found for deletion.") s, false) := by
    unfold delete_plugin
    rw [h]
  exact ⟨hstep, by rw [hstep]; rfl, by rw [hstep]; simp, by rw [hstep]; rfl⟩

/-- Witness for C8 (amended): the unknown name ghost against the baseline
state. -/
theorem delete_unknown_false_state_preserved_witness :
    delete_plugin "t" "ghost" state0
      = (pmLog "t" ("Plugin \x27" ++ "ghost" ++ "\x27 not found for deletion.") state0, false)
    ∧ (delete_plugin "t" "ghost" state0).1.loaded_plugins = state0.loaded_plugins
    ∧ (delete_plugin "t" "ghost" state0).1.fs = state0.fs
    ∧ (delete_plugin "t" "ghost" state0).1.sys_modules = state0.sys_modules :=
  delete_unknown_false_state_preserved "t" "ghost" state0 rfl

@[simp] theorem dropCached_fs (ts k : String) (s : PMState) :
    (dropCached ts k s).fs = s.fs := by
  unfold dropCached
  split <;> rfl

@[simp] theorem dropCached_loaded (ts k : String) (s : PMState) :
    (dropCached ts k s).loaded_plugins = s.loaded_plugins := by
  unfold dropCached
  split <;> rfl

@[simp] theorem dropCached_max (ts k : String) (s : PMState) :
    (dropCached ts k s).max_plugin_history_entries = s.max_plugin_history_entries := by
  unfold dropCached
  split <;> rfl

theorem dropCached_sys_ne (ts k k2 : String) (s : PMState) (h : ¬ k2 = k) :
    alookup (dropCached ts k s).sys_modules k2 = alookup s.sys_modules k2 := by
  unfold dropCached
  split
  · simp [alookup_aerase_ne _ _ _ h]
  · rfl

@[simp] theorem removeCopiedManifest_loaded (ts n : String) (s : PMState) :
    (removeCopiedManifest ts n s).loaded_plugins = s.loaded_plugins := rfl

@[simp] theorem removeCopiedManifest_sys (ts n : String) (s : PMState) :
    (removeCopiedManifest ts n s).sys_modules = s.sys_modules := rfl

@[simp] theorem removeCopiedManifest_config (ts n : String) (s : PMState) :
    (removeCopiedManifest ts n s).fs.config = s.fs.config := rfl

@[simp] theorem removeCopiedManifest_artifacts (ts n : String) (s : PMState) :
    (removeCopiedManifest ts n s).fs.artifacts = s.fs.artifacts := rfl

@[simp] theorem removeCopiedManifest_manifests (ts n : String) (s : PMState) :
    (removeCopiedManifest ts n s).fs.manifests = aerase s.fs.manifests n := rfl

@[simp] theorem cleanup_exception_loaded (ts n : String) (s : PMState) :
    (cleanup_exception ts n s).loaded_plugins = s.loaded_plugins := by
  unfold cleanup_exception
  simp only []
  split <;> split <;> rfl

@[simp] theorem cleanup_exception_sys (ts n : String) (s : PMState) :
    (cleanup_exception ts n s).sys_modules = s.sys_modules := by
  unfold cleanup_exception
  simp only []
  split <;> split <;> rfl

@[simp] theorem cleanup_exception_config (ts n : String) (s : PMState) :
    (cleanup_exception ts n s).fs.config = s.fs.config := by
  unfold cleanup_exception
  simp only []
  split <;> split <;> rfl

@[simp] theorem cleanup_failed_copy_loaded (ts n : String) (s : PMState) :
    (cleanup_failed_copy ts n s).loaded_plugins = s.loaded_plugins := by
  unfold cleanup_failed_copy
  simp only []
  split <;> split <;> rfl

@[simp] theorem cleanup_failed_copy_sys (ts n : String) (s : PMState) :
    (cleanup_failed_copy ts n s).sys_modules = s.sys_modules := by
  unfold cleanup_failed_copy
  simp only []
  split <;> split <;> rfl

@[simp] theorem cleanup_failed_copy_config (ts n : String) (s : PMState) :
    (cleanup_failed_copy ts n s).fs.config = s.fs.config := by
  unfold cleanup_failed_copy
  simp only []
  split <;> split <;> rfl

theorem execPlugins_results (ts fp : String) (bs : List Nat) :
    ∀ (l : List (String × PluginRecord)) (st : PMState),
      (execPlugins ts fp bs l st).2 =
        (l.filter (fun p => p.2.type == "analysis_plugin")).map
          (fun p => (p.1, execResultOf fp bs p.1 p.2)) := by
  intro l
  induction l with
  | nil => intro st; rfl
  | cons hd tl ih =>
    intro st
    obtain ⟨n, d⟩ := hd
    by_cases h : d.type = "analysis_plugin"
    · cases hcall : d.func.call2 fp bs with
      | ok v => simp [execPlugins, h, hcall, execResultOf, ih]
      | error e => simp [execPlugins, h, hcall, execResultOf, ih]
    · simp [execPlugins, h, ih]

theorem alookup_map_pair {α β : Type} (g : String × α → β) :
    ∀ (l : List (String × α)), (l.map Prod.fst).Nodup →
      ∀ p ∈ l, alookup (l.map (fun q => (q.1, g q))) p.1 = some (g p) := by
  intro l
  induction l with
  | nil => intro _ p hp; cases hp
  | cons hd tl ih =>
    intro hnd p hp
    obtain ⟨k, v⟩ := hd
    rcases List.mem_cons.mp hp with rfl | hmem
    · simp [alookup]
    · by_cases hk : k = p.1
      · exfalso
        have hpm : p.1 ∈ tl.map Prod.fst := List.mem_map_of_mem Prod.fst hmem
        rw [List.map_cons] at hnd
        exact (List.nodup_cons.mp hnd).1 (hk ▸ hpm)
      · simp only [List.map_cons, alookup, if_neg hk]
        exact ih (List.nodup_cons.mp (List.map_cons _ _ _ ▸ hnd)).2 p hmem

/-- C1: when every registered plugin is an analysis plugin and one of them
raises, the result mapping of `execute_analysis_plugins` still has every
plugin name as a key, maps the failing plugin to the logged error string,
and maps every other plugin to its returned value: the exception does not
abort the remaining invocations. -/
theorem execute_analysis_plugins_isolates_failures
    (s : PMState) (ts fp : String) (bs : List Nat)
    (hall : ∀ p ∈ s.loaded_plugins, p.2.type = "analysis_plugin")
    (hnodup : (s.loaded_plugins.map Prod.fst).Nodup)
    (i : Nat) (hi : i < s.loaded_plugins.length) (e : String)
    (hfail : (s.loaded_plugins.get ⟨i, hi⟩).2.func.call2 fp bs = .error e) :
    (execute_analysis_plugins ts fp bs s).2
        = s.loaded_plugins.map (fun p => (p.1, execResultOf fp bs p.1 p.2))
    ∧ (execute_analysis_plugins ts fp bs s).2.map Prod.fst
        = s.loaded_plugins.map Prod.fst
    ∧ alookup (execute_analysis_plugins ts fp bs s).2
        (s.loaded_plugins.get ⟨i, hi⟩).1
        = some (.str (execErrMsg (s.loaded_plugins.get ⟨i, hi⟩).1 fp e))
    ∧ ∀ p ∈ s.loaded_plugins, ∀ v, p.2.func.call2 fp bs = .ok v →
        alookup (execute_analysis_plugins ts fp bs s).2 p.1 = some v := by
  have hfilter : s.loaded_plugins.filter (fun p => p.2.type == "analysis_plugin")
      = s.loaded_plugins := by
    apply List.filter_eq_self.mpr
    intro p hp
    simpa using hall p hp
  have hmain : (execute_analysis_plugins ts fp bs s).2
      = s.loaded_plugins.map (fun p => (p.1, execResultOf fp bs p.1 p.2)) := by
    rw [execute_analysis_plugins, execPlugins_results, hfilter]
  refine ⟨hmain, ?_, ?_, ?_⟩
  · rw [hmain, List.map_map]
    rfl
  · rw [hmain,
      alookup_map_pair (fun q => execResultOf fp bs q.1 q.2) s.loaded_plugins hnodup
        _ (List.get_mem _ _ _)]
    unfold execResultOf
    rw [hfail]
  · intro p hp v hok
    rw [hmain, alookup_map_pair (fun q => execResultOf fp bs q.1 q.2) s.loaded_plugins
        hnodup p hp]
    unfold execResultOf
    rw [hok]

/-- Witness for C1: three active analysis plugins, the second one raising;
the mapping keeps all three keys, the failing one reports the error string
and the others their normal results. -/
theorem execute_analysis_plugins_isolates_failures_witness :
    (execute_analysis_plugins "t" "f.bin" [0] stateExec).2
        = stateExec.loaded_plugins.map
            (fun p => (p.1, execResultOf "f.bin" [0] p.1 p.2))
    ∧ (execute_analysis_plugins "t" "f.bin" [0] stateExec).2.map Prod.fst
        = stateExec.loaded_plugins.map Prod.fst
    ∧ alookup (execute_analysis_plugins "t" "f.bin" [0] stateExec).2 "p2"
        = some (.str (execErrMsg "p2" "f.bin" "RuntimeError: boom"))
    ∧ alookup (execute_analysis_plugins "t" "f.bin" [0] stateExec).2 "p1"
        = some (.str "Hello") := by
  have h := execute_analysis_plugins_isolates_failures stateExec "t" "f.bin" [0]
    (by decide) (by decide) 1 (by decide) "RuntimeError: boom" rfl
  exact ⟨h.1, h.2.1, h.2.2.1,
    h.2.2.2 ("p1", recHello "p1") (List.mem_cons_self _ _) (.str "Hello") rfl⟩

/-- Counterexample for C5: the module identity of a load attempt is a fixed
function of the plugin name, not fresh per call: two successive load
attempts for the plugin demo both use (and re-populate) the single cache
slot `module_name_of "demo"`, so after two loads the cache still holds
exactly one entry under that name instead of two per-call identities. -/
theorem module_identity_reused_across_calls :
    ((perform_dynamic_import_and_register envA "t" "demo" manifestA
        stateDemo).1.sys_modules.map Prod.fst = [module_name_of "demo"])
    ∧ ((perform_dynamic_import_and_register envA "t" "demo" manifestA
        (perform_dynamic_import_and_register envA "t" "demo" manifestA
          stateDemo).1).1.sys_modules.map Prod.fst = [module_name_of "demo"]) := by
  constructor
  · decide
  · decide

/-- C5 (amended): the module identity is derived deterministically from the
plugin name (`module_name_of`), and on a successful load the previously
cached module under that identity is discarded and replaced by the fresh
module, leaving every other cache entry untouched — which is what
makes edited code take effect on reload. -/
theorem module_cache_refreshed_per_load (env : Env) (ts name : String)
    (m : Manifest) (s : PMState) (md : PyModule) (f : PyFunc)
    (hname : ¬ name = "") (hfn : fnNameOk m.function_name = true)
    (himp : importArtifact env s.fs name = .ok md)
    (hres : alookup md.attrs (m.function_name.getD "") = some (.func f)) :
    (perform_dynamic_import_and_register env ts name m s).2 = true
    ∧ alookup (perform_dynamic_import_and_register env ts name m s).1.sys_modules
        (module_name_of name) = some md
    ∧ (∀ k, ¬ k = module_name_of name →
        alookup (perform_dynamic_import_and_register env ts name m s).1.sys_modules k
          = alookup s.sys_modules k) := by
  have hstep : perform_dynamic_import_and_register env ts name m s
      = (pmLog ts ("Successfully loaded plugin: " ++ name ++ " (Type: " ++
          m.type.getD "analysis_plugin" ++ ") from " ++ name ++ ".py.")
          (putPlugin (putModule (dropCached ts (module_name_of name) s)
            (module_name_of name) md) name
            ⟨f, m.type.getD "analysis_plugin",
             m.description.getD "No description provided.",
             name, name, m.tab_title.getD name⟩), true) := by
    unfold perform_dynamic_import_and_register
    rw [if_neg (by simp [hname, hfn])]
    simp only [dropCached_fs, himp, hres]
  refine ⟨by rw [hstep], ?_, ?_⟩
  · rw [hstep]
    simp only [pmLog_sys, putPlugin_sys, putModule_sys]
    exact alookup_ainsert_self _ _ _
  · intro k hk
    rw [hstep]
    simp only [pmLog_sys, putPlugin_sys, putModule_sys]
    rw [alookup_ainsert_ne _ _ _ _ hk]
    exact dropCached_sys_ne ts _ k s hk

/-- Witness for C5 (amended): loading demo into a state whose cache is
empty; the slot for `module_name_of "demo"` holds the imported module and an
unrelated key is untouched. -/
theorem module_cache_refreshed_per_load_witness :
    (perform_dynamic_import_and_register envA "t" "demo" manifestA stateDemo).2 = true
    ∧ alookup (perform_dynamic_import_and_register envA "t" "demo" manifestA
        stateDemo).1.sys_modules (module_name_of "demo") = some modA
    ∧ alookup (perform_dynamic_import_and_register envA "t" "demo" manifestA
        stateDemo).1.sys_modules "other" = alookup stateDemo.sys_modules "other" := by
  have h := module_cache_refreshed_per_load envA "t" "demo" manifestA stateDemo
    modA helloFunc (by decide) (by decide) rfl rfl
  exact ⟨h.1, h.2.1, h.2.2 "other" (by decide)⟩

theorem perform_fail_registry (env : Env) (ts name : String) (m : Manifest)
    (s : PMState) :
    (perform_dynamic_import_and_register env ts name m s).2 = false →
    (perform_dynamic_import_and_register env ts name m s).1.loaded_plugins
      = s.loaded_plugins := by
  unfold perform_dynamic_import_and_register
  split
  · intro _
    rfl
  · simp only [dropCached_fs]
    split
    · intro _
      simp
    · intro _
      simp
    · split
      · intro hcontra
        simp at hcontra
      · intro _
        simp

theorem perform_fail_registry_pair (env : Env) (ts name : String) (m : Manifest)
    (s s2 : PMState)
    (heq : perform_dynamic_import_and_register env ts name m s = (s2, false)) :
    s2.loaded_plugins = s.loaded_plugins := by
  have h := perform_fail_registry env ts name m s (by rw [heq])
  rwa [heq] at h

/-- Counterexample for C6: a failed load attempt can leave the plugin in
the registry.  Plugin a is already loaded; `load_new_plugin_file` of a new
a manifest with no function_name fails (returns false), yet a is still
present in `loaded_plugins` afterwards — the stale record of the old
version survives the failed overwrite. -/
theorem failed_overwrite_load_keeps_old_registration :
    (load_new_plugin_file envA "t" 5 srcBadFn true stateA).2 = false
    ∧ (alookup (load_new_plugin_file envA "t" 5 srcBadFn true
        stateA).1.loaded_plugins "a").isSome = true := by
  constructor
  · decide
  · decide

/-- C6 (amended): a manifest missing name or function_name makes the load
attempt return failure, and a failed load attempt never adds the plugin to
the registry: `_perform_dynamic_import_and_register` and
`load_new_plugin_file` leave the registry exactly unchanged on failure (so
a previously loaded same-named plugin may remain registered), and a failed
`reload_plugin` leaves the registry unchanged or removes the stale entry. -/
theorem failed_load_never_adds_registration :
    (∀ (env : Env) (ts name : String) (m : Manifest) (s : PMState),
        (name = "" ∨ fnNameOk m.function_name = false) →
        (perform_dynamic_import_and_register env ts name m s).2 = false)
    ∧ (∀ (env : Env) (ts name : String) (m : Manifest) (s : PMState),
        (perform_dynamic_import_and_register env ts name m s).2 = false →
        (perform_dynamic_import_and_register env ts name m s).1.loaded_plugins
          = s.loaded_plugins)
    ∧ (∀ (env : Env) (ts : String) (now : Nat) (src : LoadSource) (ow : Bool)
        (s : PMState),
        (load_new_plugin_file env ts now src ow s).2 = false →
        (load_new_plugin_file env ts now src ow s).1.loaded_plugins
          = s.loaded_plugins)
    ∧ (∀ (env : Env) (ts : String) (now : Nat) (name : String) (s : PMState),
        (reload_plugin env ts now name s).2 = false →
        ((reload_plugin env ts now name s).1.loaded_plugins = s.loaded_plugins
          ∨ (reload_plugin env ts now name s).1.loaded_plugins
              = aerase s.loaded_plugins name)) := by
  refine ⟨?_, perform_fail_registry, ?_, ?_⟩
  · intro env ts name m s hcond
    unfold perform_dynamic_import_and_register
    rw [if_pos (by rcases hcond with h | h <;> simp [h])]
  · intro env ts now src ow s
    unfold load_new_plugin_file
    simp only []
    split
    · intro _
      rfl
    · repeat' split
      all_goals intro hflag
      all_goals try rfl
      all_goals try (simp at hflag)
      all_goals try (simp only [removeCopiedManifest_loaded, cleanup_exception_loaded,
        cleanup_failed_copy_loaded, pmLog_loaded, putArtifact_loaded, putManifest_loaded])
      all_goals rename_i s2 heq
      all_goals have hreg := perform_fail_registry_pair _ _ _ _ _ _ heq
      all_goals simp at hreg
      all_goals simp [hreg]
  · intro env ts now name s
    unfold reload_plugin
    simp only []
    repeat' split
    all_goals intro hflag
    all_goals try (exact Or.inl rfl)
    all_goals try (simp at hflag)
    all_goals rename_i s2 heq hc
    all_goals have hreg := perform_fail_registry_pair _ _ _ _ _ _ heq
    all_goals simp at hreg
    all_goals first
      | (refine Or.inl ?_; simp [hreg]; done)
      | (refine Or.inr ?_; simp [hreg]; done)

/-- Witness for C6 (amended): the missing-function_name manifest fails the
load, and the failed overwrite of the loaded plugin a leaves the registry
exactly as it was. -/
theorem failed_load_never_adds_registration_witness :
    (perform_dynamic_import_and_register envA "t" "a" manifestNoFn stateA).2 = false
    ∧ (load_new_plugin_file envA "t" 5 srcBadFn true stateA).1.loaded_plugins
        = stateA.loaded_plugins := by
  refine ⟨failed_load_never_adds_registration.1 envA "t" "a" manifestNoFn stateA
      (Or.inr rfl), ?_⟩
  exact failed_load_never_adds_registration.2.2.1 envA "t" 5 srcBadFn true stateA
    (by decide)

/-- C10: a manifest with an unrecognized type is registered without
validation — on load success it sits in the registry with that type and
appears in the metadata listing — but its entry point is never invoked:
`execute_analysis_plugins` runs exactly the records typed analysis_plugin,
and the load-time static invocation only fires for static_html_plugin. -/
theorem unknown_type_registered_never_invoked :
    (∀ (env : Env) (ts name : String) (m : Manifest) (s : PMState) (t : String),
        m.type = some t →
        (perform_dynamic_import_and_register env ts name m s).2 = true →
        ∃ r, alookup (perform_dynamic_import_and_register env ts name m
              s).1.loaded_plugins name = some r
          ∧ r.type = t
          ∧ (name, r.description, r.type) ∈ get_plugins_metadata
              (perform_dynamic_import_and_register env ts name m s).1)
    ∧ (∀ (ts fp : String) (bs : List Nat) (s : PMState),
        (execute_analysis_plugins ts fp bs s).2
          = (s.loaded_plugins.filter (fun p => p.2.type == "analysis_plugin")).map
              (fun p => (p.1, execResultOf fp bs p.1 p.2)))
    ∧ (∀ (tabs : List String) (name : String) (s : PMState) (info : PluginRecord),
        ¬ name ∈ tabs →
        alookup s.loaded_plugins name = some info →
        ¬ info.type = "static_html_plugin" →
        add_static_plugin_tab_if_applicable tabs name s
          = StaticTabOutcome.notApplicable) := by
  refine ⟨?_, ?_, ?_⟩
  · intro env ts name m s t hm
    unfold perform_dynamic_import_and_register
    split
    · intro hcontra
      simp at hcontra
    · simp only [dropCached_fs]
      split
      · intro hcontra
        simp at hcontra
      · intro hcontra
        simp at hcontra
      · split
        · rename_i f hres
          intro _
          refine ⟨⟨f, m.type.getD "analysis_plugin",
            m.description.getD "No description provided.", name, name,
            m.tab_title.getD name⟩, ?_, ?_, ?_⟩
          · simp only [pmLog_loaded, putPlugin_loaded]
            exact alookup_ainsert_self _ _ _
          · simp [hm]
          · simp only [get_plugins_metadata, pmLog_loaded, putPlugin_loaded]
            exact List.mem_map_of_mem _ (mem_ainsert_self _ _ _)
        · intro hcontra
          simp at hcontra
  · intro ts fp bs s
    rw [execute_analysis_plugins, execPlugins_results]
  · intro tabs name s info htabs hinfo htype
    unfold add_static_plugin_tab_if_applicable
    simp only [if_neg htabs, hinfo, if_neg htype]

/-- Witness for C10: the fancy_plugin manifest loads into the registry with
its unrecognized type, the execution pass over a registry containing only
that plugin is the filtered (empty) mapping, and the static invocation does
not fire for it. -/
theorem unknown_type_registered_never_invoked_witness :
    (∃ r, alookup (perform_dynamic_import_and_register envA "t" "demo"
          manifestWeird stateDemo).1.loaded_plugins "demo" = some r
        ∧ r.type = "fancy_plugin"
        ∧ ("demo", r.description, r.type) ∈ get_plugins_metadata
            (perform_dynamic_import_and_register envA "t" "demo" manifestWeird
              stateDemo).1)
    ∧ (execute_analysis_plugins "t" "f.bin" [0] stateWeird).2
        = (stateWeird.loaded_plugins.filter
            (fun p => p.2.type == "analysis_plugin")).map
            (fun p => (p.1, execResultOf "f.bin" [0] p.1 p.2))
    ∧ add_static_plugin_tab_if_applicable [] "w" stateWeird
        = StaticTabOutcome.notApplicable := by
  refine ⟨unknown_type_registered_never_invoked.1 envA "t" "demo" manifestWeird
      stateDemo "fancy_plugin" rfl (by decide), ?_, ?_⟩
  · exact unknown_type_registered_never_invoked.2.1 "t" "f.bin" [0] stateWeird
  · exact unknown_type_registered_never_invoked.2.2 [] "w" stateWeird recWeird
      (by simp) rfl (by decide)

theorem pySliceLast_pos {α : Type} (l : List α) (m : Nat) (h : 1 ≤ m) :
    pySliceLast l m = l.drop (l.length - m) := by
  unfold pySliceLast
  rw [if_neg (by omega)]

theorem pmLog_entries (ts msg : String) (s : PMState)
    (h : 1 ≤ s.max_plugin_history_entries) :
    (pmLog ts msg s).history_entries
      = (s.history_entries ++ [full_message ts msg]).drop
          ((s.history_entries.length + 1) - s.max_plugin_history_entries) := by
  unfold pmLog
  simp only []
  split
  · rw [pySliceLast_pos _ _ h]
    simp
  · rename_i hle
    rw [List.length_append] at hle
    have h0 : (s.history_entries.length + 1) - s.max_plugin_history_entries = 0 := by
      simp at hle
      omega
    rw [h0, List.drop_zero]

theorem pmLog_length_le (ts msg : String) (s : PMState)
    (h : 1 ≤ s.max_plugin_history_entries) :
    (pmLog ts msg s).history_entries.length ≤ s.max_plugin_history_entries := by
  rw [pmLog_entries ts msg s h]
  rw [List.length_drop, List.length_append]
  simp
  omega

theorem update_settings_max (s : PMState) (n : Nat) :
    (update_settings s n).max_plugin_history_entries = n := by
  unfold update_settings
  simp only []
  split <;> rfl

theorem update_settings_length_le (s : PMState) (n : Nat) (h : 1 ≤ n) :
    (update_settings s n).history_entries.length ≤ n := by
  unfold update_settings
  simp only []
  split
  · rw [pySliceLast_pos _ _ h]
    rw [List.length_drop]
    omega
  · rename_i hle
    simpa using Nat.le_of_not_lt hle

theorem drop_append_drop {α : Type} (X F : List α) (a b : Nat) (ha : a ≤ X.length) :
    (X.drop a ++ F).drop b = (X ++ F).drop (a + b) := by
  rw [← List.drop_drop]
  congr 1
  rw [List.drop_append_eq_append_drop]
  rw [Nat.sub_eq_zero_of_le ha, List.drop_zero]

theorem histRun_appends (msgs : List (String × String)) :
    ∀ s : PMState, 1 ≤ s.max_plugin_history_entries →
      s.history_entries.length ≤ s.max_plugin_history_entries →
      (histRun s (msgs.map (fun p => HistOp.append p.1 p.2))).history_entries
        = (s.history_entries ++ msgs.map (fun p => full_message p.1 p.2)).drop
            ((s.history_entries.length + msgs.length) - s.max_plugin_history_entries)
      ∧ (histRun s (msgs.map (fun p => HistOp.append p.1 p.2))).max_plugin_history_entries
        = s.max_plugin_history_entries := by
  induction msgs with
  | nil =>
    intro s h1 h2
    refine ⟨?_, rfl⟩
    have h0 : s.history_entries.length - s.max_plugin_history_entries = 0 := by
      omega
    simp [histRun, h0]
  | cons hd tl ih =>
    intro s h1 h2
    have hstep : histRun s ((hd :: tl).map (fun p => HistOp.append p.1 p.2))
        = histRun (pmLog hd.1 hd.2 s) (tl.map (fun p => HistOp.append p.1 p.2)) := rfl
    have h1s : 1 ≤ (pmLog hd.1 hd.2 s).max_plugin_history_entries := by
      rw [pmLog_max]
      exact h1
    have h2s : (pmLog hd.1 hd.2 s).history_entries.length
        ≤ (pmLog hd.1 hd.2 s).max_plugin_history_entries := by
      rw [pmLog_max]
      exact pmLog_length_le _ _ _ h1
    obtain ⟨hent, hmax⟩ := ih (pmLog hd.1 hd.2 s) h1s h2s
    rw [hstep]
    refine ⟨?_, by rw [hmax, pmLog_max]⟩
    rw [hent, pmLog_max, pmLog_entries _ _ _ h1]
    rw [List.length_drop]
    rw [drop_append_drop _ _ _ _ (by simp)]
    rw [List.append_assoc, List.singleton_append]
    congr 1
    simp
    omega

theorem histRun_length_le : ∀ (ops : List HistOp) (s : PMState), ¬ ops = [] →
    1 ≤ s.max_plugin_history_entries →
    (∀ op ∈ ops, histOpCapOk op = true) →
    (histRun s ops).history_entries.length
      ≤ (histRun s ops).max_plugin_history_entries := by
  intro ops
  induction ops with
  | nil =>
    intro s h
    exact absurd rfl h
  | cons op rest ih =>
    intro s _ hcap hops
    have hcapok : histOpCapOk op = true := hops _ (List.mem_cons_self _ _)
    have hrestok : ∀ op2 ∈ rest, histOpCapOk op2 = true :=
      fun op2 hm => hops op2 (List.mem_cons_of_mem _ hm)
    have hstep : histRun s (op :: rest) = histRun (histStep s op) rest := rfl
    rw [hstep]
    clear hstep hops
    cases rest with
    | nil =>
      cases op with
      | append ts msg =>
        show (pmLog ts msg s).history_entries.length
          ≤ (pmLog ts msg s).max_plugin_history_entries
        rw [pmLog_max]
        exact pmLog_length_le _ _ _ hcap
      | setCapacity n =>
        have hn : 1 ≤ n := by
          simpa [histOpCapOk] using hcapok
        show (update_settings s n).history_entries.length
          ≤ (update_settings s n).max_plugin_history_entries
        rw [update_settings_max]
        exact update_settings_length_le s n hn
    | cons op2 rest2 =>
      have hcap2 : 1 ≤ (histStep s op).max_plugin_history_entries := by
        cases op with
        | append ts msg =>
          simpa [histStep, pmLog_max] using hcap
        | setCapacity n =>
          have hn : 1 ≤ n := by
            simpa [histOpCapOk] using hcapok
          simpa [histStep, update_settings_max] using hn
      exact ih (histStep s op) (List.cons_ne_nil _ _) hcap2 hrestok

/-- Counterexample for C2: with the capacity set to 0 the Python trim slice
`history_entries[-0:]` is the whole list, so nothing is ever evicted: after
`setCapacity 0` one append leaves a history of length 1, exceeding the
configured capacity 0.  (The settings layer forbids 0, so the loop needs
capacity at least 1; see the amended theorem.) -/
theorem history_capacity_zero_unbounded :
    (histRun state0 [HistOp.setCapacity 0,
        HistOp.append "t" "m"]).max_plugin_history_entries = 0
    ∧ (histRun state0 [HistOp.setCapacity 0,
        HistOp.append "t" "m"]).history_entries.length = 1 := by
  constructor
  · decide
  · decide

/-- C2 (amended): for capacities at least 1 — the only values the settings
layer can configure — the in-memory history length never exceeds the
current capacity after any non-empty sequence of `_log` and
`update_settings` calls, and appending `capacity + k` entries (any k,
including 0) from any initial history leaves exactly the last `capacity`
appended entries in order. -/
theorem history_bounded_and_fifo :
    (∀ (s : PMState) (ops : List HistOp), ¬ ops = [] →
        1 ≤ s.max_plugin_history_entries →
        (∀ op ∈ ops, histOpCapOk op = true) →
        (histRun s ops).history_entries.length
          ≤ (histRun s ops).max_plugin_history_entries)
    ∧ (∀ (s : PMState) (msgs : List (String × String)) (k : Nat),
        1 ≤ s.max_plugin_history_entries →
        msgs.length = s.max_plugin_history_entries + k →
        (histRun s (msgs.map (fun p => HistOp.append p.1 p.2))).history_entries
          = (msgs.map (fun p => full_message p.1 p.2)).drop k) := by
  refine ⟨fun s ops h1 h2 h3 => histRun_length_le ops s h1 h2 h3, ?_⟩
  intro s msgs k hcap hlen
  cases msgs with
  | nil =>
    exfalso
    simp at hlen
    omega
  | cons m0 rest =>
    have hstep : histRun s ((m0 :: rest).map (fun p => HistOp.append p.1 p.2))
        = histRun (pmLog m0.1 m0.2 s) (rest.map (fun p => HistOp.append p.1 p.2)) := rfl
    have h1s : 1 ≤ (pmLog m0.1 m0.2 s).max_plugin_history_entries := by
      rw [pmLog_max]
      exact hcap
    have h2s : (pmLog m0.1 m0.2 s).history_entries.length
        ≤ (pmLog m0.1 m0.2 s).max_plugin_history_entries := by
      rw [pmLog_max]
      exact pmLog_length_le _ _ _ hcap
    obtain ⟨hent, _⟩ := histRun_appends rest (pmLog m0.1 m0.2 s) h1s h2s
    rw [hstep, hent, pmLog_max, pmLog_entries _ _ _ hcap, List.length_drop]
    rw [drop_append_drop _ _ _ _ (by simp)]
    rw [List.append_assoc, List.singleton_append]
    have hlen2 : rest.length = s.max_plugin_history_entries + k - 1 := by
      rw [List.length_cons] at hlen
      omega
    rw [show (m0 :: rest).map (fun p => full_message p.1 p.2)
        = full_message m0.1 m0.2 :: rest.map (fun p => full_message p.1 p.2)
        from rfl]
    rw [List.drop_append_eq_append_drop]
    have hidx : (s.history_entries.length + 1) - s.max_plugin_history_entries
        + (((s.history_entries ++ [full_message m0.1 m0.2]).length
            - ((s.history_entries.length + 1) - s.max_plugin_history_entries)
            + rest.length) - s.max_plugin_history_entries)
        = s.history_entries.length + k := by
      simp
      omega
    rw [hidx]
    have hdropall : s.history_entries.drop (s.history_entries.length + k) = [] := by
      apply List.drop_eq_nil_of_le
      omega
    rw [hdropall]
    simp

/-- Witness for C2 (amended): a setCapacity-then-append sequence keeps the
length within the capacity, and appending 3 entries at capacity 2 leaves
exactly the last 2 in order. -/
theorem history_bounded_and_fifo_witness :
    ((histRun state0 [HistOp.setCapacity 2, HistOp.append "t" "m1",
        HistOp.append "t" "m2", HistOp.append "t" "m3"]).history_entries.length
      ≤ (histRun state0 [HistOp.setCapacity 2, HistOp.append "t" "m1",
        HistOp.append "t" "m2", HistOp.append "t" "m3"]).max_plugin_history_entries)
    ∧ (histRun stateCap2 ([("t", "m1"), ("t", "m2"), ("t", "m3")].map
          (fun p => HistOp.append p.1 p.2))).history_entries
        = ([("t", "m1"), ("t", "m2"), ("t", "m3")].map
            (fun p => full_message p.1 p.2)).drop 1 := by
  constructor
  · exact history_bounded_and_fifo.1 state0 _ (List.cons_ne_nil _ _) (by decide)
      (by decide)
  · exact history_bounded_and_fifo.2 stateCap2 [("t", "m1"), ("t", "m2"), ("t", "m3")]
      1 (by decide) (by decide)

theorem configMirrors_save (ts : String) (s : PMState) :
    ConfigMirrors (save_plugin_config ts s) := by
  simp [ConfigMirrors]

theorem perform_config (env : Env) (ts name : String) (m : Manifest) (s : PMState) :
    (perform_dynamic_import_and_register env ts name m s).1.fs.config
      = s.fs.config := by
  unfold perform_dynamic_import_and_register
  split
  · rfl
  · simp only [dropCached_fs]
    split
    · simp
    · simp
    · split
      · simp
      · simp

theorem perform_config_pair (env : Env) (ts name : String) (m : Manifest)
    (s s2 : PMState) (flag : Bool)
    (heq : perform_dynamic_import_and_register env ts name m s = (s2, flag)) :
    s2.fs.config = s.fs.config := by
  have h := perform_config env ts name m s
  rwa [heq] at h

/-- C3: the persisted config file always equals the registry key list
immediately after every mutating operation: the full disk scan and
`reload_all_plugins` establish it outright, and `delete_plugin`,
`load_new_plugin_file` and `reload_plugin` preserve it from any state in
which it held before. -/
theorem config_mirrors_registry_after_mutations :
    (∀ (env : Env) (ts : String) (now : Nat) (s : PMState),
        ConfigMirrors (load_plugins_from_disk_and_config env ts now s))
    ∧ (∀ (env : Env) (ts : String) (now : Nat) (s : PMState),
        ConfigMirrors (reload_all_plugins env ts now s))
    ∧ (∀ (ts name : String) (s : PMState), ConfigMirrors s →
        ConfigMirrors (delete_plugin ts name s).1)
    ∧ (∀ (env : Env) (ts : String) (now : Nat) (src : LoadSource) (ow : Bool)
        (s : PMState), ConfigMirrors s →
        ConfigMirrors (load_new_plugin_file env ts now src ow s).1)
    ∧ (∀ (env : Env) (ts : String) (now : Nat) (name : String) (s : PMState),
        ConfigMirrors s → ConfigMirrors (reload_plugin env ts now name s).1) := by
  refine ⟨?_, ?_, ?_, ?_, ?_⟩
  · intro env ts now s
    simp [ConfigMirrors, load_plugins_from_disk_and_config]
  · intro env ts now s
    simp [ConfigMirrors, reload_all_plugins, load_plugins_from_disk_and_config]
  · intro ts name s hs
    unfold delete_plugin
    simp only []
    split
    · simpa [ConfigMirrors] using hs
    · simp [ConfigMirrors]
  · intro env ts now src ow s hs
    unfold load_new_plugin_file
    simp only []
    repeat' split
    all_goals first
      | (simp [ConfigMirrors]; done)
      | (simpa [ConfigMirrors] using hs)
      | (rename_i s2 heq
         have hcfg := perform_config_pair _ _ _ _ _ _ _ heq
         have hreg := perform_fail_registry_pair _ _ _ _ _ _ heq
         simp at hcfg hreg
         simp [ConfigMirrors, hcfg, hreg]
         exact hs)
  · intro env ts now name s hs
    unfold reload_plugin
    simp only []
    repeat' split
    all_goals first
      | (simp [ConfigMirrors]; done)
      | (simpa [ConfigMirrors] using hs)
      | (rename_i s2 heq hc
         have hcfg := perform_config_pair _ _ _ _ _ _ _ heq
         have hreg := perform_fail_registry_pair _ _ _ _ _ _ heq
         simp at hcfg hreg
         simp [ConfigMirrors, hcfg, hreg]
         exact hs)
      | (rename_i s2 heq
         have hcfg := perform_config_pair _ _ _ _ _ _ _ heq
         have hreg := perform_fail_registry_pair _ _ _ _ _ _ heq
         simp at hcfg hreg
         simp [ConfigMirrors, hcfg, hreg]
         exact hs)

theorem perform_manifests (env : Env) (ts name : String) (m : Manifest) (s : PMState) :
    (perform_dynamic_import_and_register env ts name m s).1.fs.manifests
      = s.fs.manifests := by
  unfold perform_dynamic_import_and_register
  split
  · rfl
  · simp only [dropCached_fs]
    split
    · simp
    · simp
    · split
      · simp
      · simp

theorem perform_manifests_pair (env : Env) (ts name : String) (m : Manifest)
    (s s2 : PMState) (flag : Bool)
    (heq : perform_dynamic_import_and_register env ts name m s = (s2, flag)) :
    s2.fs.manifests = s.fs.manifests := by
  have h := perform_manifests env ts name m s
  rwa [heq] at h

theorem perform_artifacts (env : Env) (ts name : String) (m : Manifest) (s : PMState) :
    (perform_dynamic_import_and_register env ts name m s).1.fs.artifacts
      = s.fs.artifacts := by
  unfold perform_dynamic_import_and_register
  split
  · rfl
  · simp only [dropCached_fs]
    split
    · simp
    · simp
    · split
      · simp
      · simp

theorem perform_artifacts_pair (env : Env) (ts name : String) (m : Manifest)
    (s s2 : PMState) (flag : Bool)
    (heq : perform_dynamic_import_and_register env ts name m s = (s2, flag)) :
    s2.fs.artifacts = s.fs.artifacts := by
  have h := perform_artifacts env ts name m s
  rwa [heq] at h

theorem cleanup_exception_manifests_self (ts n : String) (s : PMState) :
    alookup (cleanup_exception ts n s).fs.manifests n = Option.none := by
  unfold cleanup_exception
  simp only []
  split
  · split
    · simp [alookup_aerase_self]
    · simp [alookup_aerase_self]
  · rename_i hn
    have h0 : alookup s.fs.manifests n = Option.none :=
      Option.not_isSome_iff_eq_none.mp hn
    split
    · simpa using h0
    · simpa using h0

theorem cleanup_exception_manifests_ne (ts n k : String) (s : PMState)
    (hk : ¬ k = n) :
    alookup (cleanup_exception ts n s).fs.manifests k
      = alookup s.fs.manifests k := by
  unfold cleanup_exception
  simp only []
  split
  · split
    · simp [alookup_aerase_ne _ _ _ hk]
    · simp [alookup_aerase_ne _ _ _ hk]
  · split
    · simp
    · rfl

theorem cleanup_exception_artifacts_self (ts n : String) (s : PMState) :
    alookup (cleanup_exception ts n s).fs.artifacts n = Option.none := by
  unfold cleanup_exception
  simp only []
  split
  · split
    · simp [alookup_aerase_self]
    · rename_i hn
      have h0 : alookup (delManifest s n).fs.artifacts n = Option.none :=
        Option.not_isSome_iff_eq_none.mp hn
      simpa using h0
  · split
    · simp [alookup_aerase_self]
    · rename_i _ hn
      exact Option.not_isSome_iff_eq_none.mp hn

theorem cleanup_exception_artifacts_ne (ts n k : String) (s : PMState)
    (hk : ¬ k = n) :
    alookup (cleanup_exception ts n s).fs.artifacts k
      = alookup s.fs.artifacts k := by
  unfold cleanup_exception
  simp only []
  split
  · split
    · simp [alookup_aerase_ne _ _ _ hk]
    · simp
  · split
    · simp [alookup_aerase_ne _ _ _ hk]
    · rfl

theorem cleanup_failed_copy_manifests_self (ts n : String) (s : PMState) :
    alookup (cleanup_failed_copy ts n s).fs.manifests n = Option.none := by
  unfold cleanup_failed_copy
  simp only []
  split
  · split
    · simp [alookup_aerase_self]
    · simp [alookup_aerase_self]
  · rename_i hn
    have h0 : alookup s.fs.manifests n = Option.none :=
      Option.not_isSome_iff_eq_none.mp hn
    split
    · simpa using h0
    · simpa using h0

theorem cleanup_failed_copy_manifests_ne (ts n k : String) (s : PMState)
    (hk : ¬ k = n) :
    alookup (cleanup_failed_copy ts n s).fs.manifests k
      = alookup s.fs.manifests k := by
  unfold cleanup_failed_copy
  simp only []
  split
  · split
    · simp [alookup_aerase_ne _ _ _ hk]
    · simp [alookup_aerase_ne _ _ _ hk]
  · split
    · simp
    · rfl

theorem cleanup_failed_copy_artifacts_self (ts n : String) (s : PMState) :
    alookup (cleanup_failed_copy ts n s).fs.artifacts n = Option.none := by
  unfold cleanup_failed_copy
  simp only []
  split
  · split
    · simp [alookup_aerase_self]
    · rename_i hn
      have h0 : alookup (pmLog ts ("Removed problematic copied .infoscava file: "
          ++ n ++ ".infoscava") (delManifest s n)).fs.artifacts n = Option.none :=
        Option.not_isSome_iff_eq_none.mp hn
      simpa using h0
  · split
    · simp [alookup_aerase_self]
    · rename_i _ hn
      exact Option.not_isSome_iff_eq_none.mp hn

theorem cleanup_failed_copy_artifacts_ne (ts n k : String) (s : PMState)
    (hk : ¬ k = n) :
    alookup (cleanup_failed_copy ts n s).fs.artifacts k
      = alookup s.fs.artifacts k := by
  unfold cleanup_failed_copy
  simp only []
  split
  · split
    · simp [alookup_aerase_ne _ _ _ hk]
    · simp
  · split
    · simp [alookup_aerase_ne _ _ _ hk]
    · rfl

/-- C9: a failed `load_new_plugin_file` leaves no new files and the
registry unchanged: every failure path removes the copied manifest (when
the copy happened) and any artifact generated by the call, touches no file
of any other plugin, and never mutates `loaded_plugins`.  For the plugin
name itself, each of the two files afterwards is either gone or exactly
what it was before the call. -/
theorem load_new_plugin_file_failure_cleanup (env : Env) (ts : String)
    (now : Nat) (src : LoadSource) (ow : Bool) (s : PMState)
    (h : (load_new_plugin_file env ts now src ow s).2 = false) :
    (load_new_plugin_file env ts now src ow s).1.loaded_plugins = s.loaded_plugins
    ∧ (∀ k, ¬ k = src.name →
        alookup (load_new_plugin_file env ts now src ow s).1.fs.manifests k
          = alookup s.fs.manifests k)
    ∧ (∀ k, ¬ k = src.name →
        alookup (load_new_plugin_file env ts now src ow s).1.fs.artifacts k
          = alookup s.fs.artifacts k)
    ∧ (alookup (load_new_plugin_file env ts now src ow s).1.fs.manifests src.name
          = Option.none
        ∨ alookup (load_new_plugin_file env ts now src ow s).1.fs.manifests src.name
          = alookup s.fs.manifests src.name)
    ∧ (alookup (load_new_plugin_file env ts now src ow s).1.fs.artifacts src.name
          = Option.none
        ∨ alookup (load_new_plugin_file env ts now src ow s).1.fs.artifacts src.name
          = alookup s.fs.artifacts src.name) := by
  revert h
  unfold load_new_plugin_file
  simp only []
  repeat' split
  all_goals intro hflag
  all_goals try (simp at hflag)
  all_goals refine ⟨?_, fun k hk => ?_, fun k hk => ?_, ?_, ?_⟩
  all_goals first
    | rfl
    | exact Or.inr rfl
    | (simp; done)
    | (simp [alookup_aerase_ne _ _ _ hk, alookup_ainsert_ne _ _ _ _ hk]; done)
    | (refine Or.inl ?_; simp [alookup_aerase_self]; done)
    | (simp [cleanup_exception_manifests_ne _ _ _ _ hk,
        alookup_ainsert_ne _ _ _ _ hk]; done)
    | (simp [cleanup_exception_artifacts_ne _ _ _ _ hk]; done)
    | (refine Or.inl ?_; simp [cleanup_exception_manifests_self]; done)
    | (refine Or.inl ?_; simp [cleanup_exception_artifacts_self]; done)
    | (rename_i s2 heq
       have hman := perform_manifests_pair _ _ _ _ _ _ _ heq
       have hart := perform_artifacts_pair _ _ _ _ _ _ _ heq
       have hreg := perform_fail_registry_pair _ _ _ _ _ _ heq
       simp at hman hart hreg
       first
         | (simp [hreg]; done)
         | (simp [cleanup_failed_copy_manifests_ne _ _ _ _ hk, hman,
             alookup_ainsert_ne _ _ _ _ hk]; done)
         | (simp [cleanup_failed_copy_artifacts_ne _ _ _ _ hk, hart,
             alookup_ainsert_ne _ _ _ _ hk]; done)
         | (refine Or.inl ?_; simp [cleanup_failed_copy_manifests_self]; done)
         | (refine Or.inl ?_; simp [cleanup_failed_copy_artifacts_self]; done))

/-- Witness for C9: the failed overwrite-load of plugin a against stateA;
an unrelated key is untouched and the a files are gone or unchanged. -/
theorem load_new_plugin_file_failure_cleanup_witness :
    (load_new_plugin_file envA "t" 5 srcBadFn true stateA).1.loaded_plugins
        = stateA.loaded_plugins
    ∧ alookup (load_new_plugin_file envA "t" 5 srcBadFn true
        stateA).1.fs.manifests "other" = alookup stateA.fs.manifests "other"
    ∧ alookup (load_new_plugin_file envA "t" 5 srcBadFn true
        stateA).1.fs.artifacts "other" = alookup stateA.fs.artifacts "other"
    ∧ (alookup (load_new_plugin_file envA "t" 5 srcBadFn true
          stateA).1.fs.manifests "a" = Option.none
        ∨ alookup (load_new_plugin_file envA "t" 5 srcBadFn true
          stateA).1.fs.manifests "a" = alookup stateA.fs.manifests "a")
    ∧ (alookup (load_new_plugin_file envA "t" 5 srcBadFn true
          stateA).1.fs.artifacts "a" = Option.none
        ∨ alookup (load_new_plugin_file envA "t" 5 srcBadFn true
          stateA).1.fs.artifacts "a" = alookup stateA.fs.artifacts "a") := by
  have h := load_new_plugin_file_failure_cleanup envA "t" 5 srcBadFn true stateA
    (by decide)
  exact ⟨h.1, h.2.1 "other" (by decide), h.2.2.1 "other" (by decide),
    h.2.2.2.1, h.2.2.2.2⟩

/-- Witness for C3: the invariant after a full scan of stateA, after
deleting an unknown plugin from the baseline state, and after the failed
overwrite-load of plugin a. -/
theorem config_mirrors_registry_after_mutations_witness :
    ConfigMirrors (load_plugins_from_disk_and_config envA "t" 5 stateA)
    ∧ ConfigMirrors (delete_plugin "t" "ghost" state0).1
    ∧ ConfigMirrors (load_new_plugin_file envA "t" 5 srcBadFn true stateA).1 := by
  refine ⟨config_mirrors_registry_after_mutations.1 envA "t" 5 stateA, ?_, ?_⟩
  · exact config_mirrors_registry_after_mutations.2.2.1 "t" "ghost" state0
      (show state0.fs.config = some (state0.loaded_plugins.map Prod.fst) by decide)
  · exact config_mirrors_registry_after_mutations.2.2.2.1 envA "t" 5 srcBadFn
      true stateA
      (show stateA.fs.config = some (stateA.loaded_plugins.map Prod.fst) by decide)
